import Mathlib

/-!
Verification of the conversational control flow of `src/main.py`
(AI homework tutor: guardrail check → triage/stream → history update).

The remote model calls (`Runner.run` on the guardrail agent,
`Runner.run_streamed` on the triage agent) are opaque external
collaborators; each incoming message's interaction with them is modelled
by a `ModelBehavior` record holding the guardrail verdict the model
returns and the event stream / final output the streamed run produces.
Everything else — the branching, the history mutation, the UI operations
— is translated line by line from `on_message` in `src/main.py`.

Note on the source: line 125 of `src/main.py` reads `try:git`; the stray
`git` token is a syntax slip (the evident intent is `try:`).  The model
below embeds both the body of that try block and its except clause as
written (`on_message` and `on_message_faulted`, combined in
`runMessage`); the slip itself is reported separately as a defect of the
fault-handling path.
-/

namespace AiTutor

/-- A conversation turn: the Python dict `{"role": ..., "content": ...}`
appended to `history` in `on_message` (src/main.py lines 120, 154). -/
structure Turn where
  role : String
  content : String
deriving DecidableEq, Repr

/-- The pydantic `HomeworkOutput` schema (src/main.py lines 49-51). -/
structure HomeworkOutput where
  is_homework : Bool
  reasoning : String
deriving DecidableEq, Repr

/-- The `GuardrailFunctionOutput` record built by `homework_guardrail`
(src/main.py lines 68-71). -/
structure GuardrailFunctionOutput where
  output_info : HomeworkOutput
  tripwire_triggered : Bool
deriving DecidableEq, Repr

/-- `homework_guardrail` (src/main.py lines 62-71), as a function of the
guardrail agent's final output (the remote classification, supplied by the
oracle): `tripwire_triggered = not final_output.is_homework`. -/
def homework_guardrail (final_output : HomeworkOutput) : GuardrailFunctionOutput :=
  { output_info := final_output
    tripwire_triggered := !final_output.is_homework }

/-- An agent profile (the `Agent(...)` constructions in src/main.py).
`input_guardrails` lists the names of the guardrail functions attached to
the agent; `handoffs` the names of its delegate agents. -/
structure Agent where
  name : String
  instructions : String
  handoff_description : Option String
  handoffs : List String
  input_guardrails : List String
deriving DecidableEq, Repr

/-- `guardrail_agent` (src/main.py lines 54-59). -/
def guardrail_agent : Agent :=
  { name := "Guardrail check"
    instructions := "Check if the user is asking about homework."
    handoff_description := none
    handoffs := []
    input_guardrails := [] }

/-- `math_tutor_agent` (src/main.py lines 74-78). -/
def math_tutor_agent : Agent :=
  { name := "Math Tutor"
    instructions := "You provide help with math problems. Explain your reasoning at each step and include examples."
    handoff_description := some "Specialist agent for math questions"
    handoffs := []
    input_guardrails := [] }

/-- `history_tutor_agent` (src/main.py lines 80-84). -/
def history_tutor_agent : Agent :=
  { name := "History Tutor"
    instructions := "You provide assistance with historical queries. Explain important events and context clearly."
    handoff_description := some "Specialist agent for historical questions"
    handoffs := []
    input_guardrails := [] }

/-- `triage_agent` (src/main.py lines 87-92): declares the two specialists
as handoffs and `homework_guardrail` as its single input guardrail. -/
def triage_agent : Agent :=
  { name := "Triage Agent"
    instructions := "You determine which agent to use based on the user's homework question."
    handoff_description := none
    handoffs := ["History Tutor", "Math Tutor"]
    input_guardrails := ["homework_guardrail"] }

/-- One event yielded by `result.stream_events()`.  `textDelta d` stands
for a `raw_response_event` whose `data` is a `ResponseTextDeltaEvent` with
delta `d` (the only shape `on_message` inspects, src/main.py line 144);
`otherEvent` is any other event, which the loop ignores. -/
inductive StreamEvent where
  | textDelta (delta : String)
  | otherEvent
deriving DecidableEq, Repr

/-- The observable part of `Runner.run_streamed(...)`: the ordered event
stream and the `final_output` attribute read on src/main.py line 148
(only its presence is inspected, so its payload is kept abstract as a
string). -/
structure RunResultStreaming where
  events : List StreamEvent
  final_output : Option String
deriving DecidableEq, Repr

/-- What the remote model does for one incoming message: the verdict the
guardrail agent run returns, and the streamed run's result.  Both remote
calls are opaque externals; `on_message` is a function of this record. -/
structure ModelBehavior where
  verdict : HomeworkOutput
  stream : RunResultStreaming
deriving DecidableEq, Repr

/-- Python's `str.isspace()` for a single character: true exactly on the
code points U+0009-U+000D, U+001C-U+0020, U+0085, U+00A0, U+1680,
U+2000-U+200A, U+2028-U+2029, U+202F, U+205F and U+3000 (the characters
CPython's `str.strip()` with no arguments removes). -/
def pyIsSpace (c : Char) : Bool :=
  (0x9 ≤ c.toNat && c.toNat ≤ 0xd) ||
  (0x1c ≤ c.toNat && c.toNat ≤ 0x20) ||
  c.toNat == 0x85 || c.toNat == 0xa0 || c.toNat == 0x1680 ||
  (0x2000 ≤ c.toNat && c.toNat ≤ 0x200a) ||
  (0x2028 ≤ c.toNat && c.toNat ≤ 0x2029) ||
  c.toNat == 0x202f || c.toNat == 0x205f || c.toNat == 0x3000

/-- Python's `str.strip()` with no arguments (src/main.py line 150):
removes leading and trailing whitespace characters (`pyIsSpace`). -/
def pyStrip (s : String) : String :=
  ⟨((s.data.dropWhile pyIsSpace).reverse.dropWhile pyIsSpace).reverse⟩

/-- The text deltas of a stream, in arrival order: the successive
`event.data.delta` values accumulated on src/main.py lines 144-146. -/
def deltasOf (events : List StreamEvent) : List String :=
  events.filterMap fun e =>
    match e with
    | .textDelta d => some d
    | .otherEvent => none

/-- One outgoing-UI operation performed by `on_message` on the single
`cl.Message` it creates: `send` shows a new message with the given
content, `streamToken` appends a streamed token to it, `update` replaces
its content. -/
inductive UiOp where
  | send (content : String)
  | streamToken (token : String)
  | update (content : String)
deriving DecidableEq, Repr

/-- The rejection notice (src/main.py line 130). -/
def rejection_notice : String :=
  "🚫 That question isn't allowed. Please ask only about **Math**, **History**"

/-- The empty-result fallback notice (src/main.py line 151). -/
def fallback_notice : String :=
  "❌ Sorry, I can only help with Math or History questions related to MHI topics."

/-- Everything observable about one `on_message` run: the session history
after the run, the ordered UI operations, the history the guardrail was
given, and how many times the guardrail classifier was invoked. -/
structure MessageOutcome where
  history : List Turn
  ops : List UiOp
  guardrailInput : List Turn
  guardrailRuns : Nat
deriving DecidableEq, Repr

/-- The message handler `on_message` (src/main.py lines 117-156), the
non-fault paths of its try body.  Steps, in source order: append the user
turn to history (line 120); send the placeholder message (lines 122-123);
run `homework_guardrail` on the full history (line 127); on tripwire,
update to the rejection notice and return (lines 129-132); otherwise run
the triage agent streamed (lines 135-139), accumulating and streaming
every text delta (lines 141-146); then either the fallback notice (lines
150-151) or the accumulated output appended as the assistant turn (lines
152-154), followed by `msg.update()` (line 156).

`guardrailRuns` counts invocations of the guardrail classifier for this
message: the explicit call on line 127, plus — on the accepted path —
one per guardrail in `triage_agent.input_guardrails`, which the
orchestrator (`Runner.run_streamed`, an external) evaluates as a
precondition before the triage logic executes. -/
def on_message (history : List Turn) (content : String) (model : ModelBehavior) :
    MessageOutcome :=
  let history1 := history ++ [{ role := "user", content := content }]
  let guardrail_output := homework_guardrail model.verdict
  if guardrail_output.tripwire_triggered then
    { history := history1
      ops := [.send " ", .update rejection_notice]
      guardrailInput := history1
      guardrailRuns := 1 }
  else
    let deltas := deltasOf model.stream.events
    let full_output := String.join deltas
    if model.stream.final_output.isNone || pyStrip full_output == "" then
      { history := history1
        ops := .send " " :: (deltas.map .streamToken ++ [.update fallback_notice])
        guardrailInput := history1
        guardrailRuns := 1 + triage_agent.input_guardrails.length }
    else
      { history := history1 ++ [{ role := "assistant", content := full_output }]
        ops := .send " " :: (deltas.map .streamToken ++ [.update full_output])
        guardrailInput := history1
        guardrailRuns := 1 + triage_agent.input_guardrails.length }

/-- The error notice built by the except clause (src/main.py line 160):
`f"❌ Oops! Something went wrong:\n\n`{str(e)}`"`. -/
def error_notice (e : String) : String :=
  "❌ Oops! Something went wrong:\n\n`" ++ e ++ "`"

/-- One run of the message handler: either the try body completes (with
the remote calls behaving as `m` says), or some remote call raises an
exception during guardrail evaluation or streaming. A faulted run carries
the tokens already streamed to the UI and the guardrail invocations
already made before the exception surfaced, and the exception's text. -/
inductive MessageRun where
  | normal (m : ModelBehavior)
  | faulted (tokensBefore : List String) (runsBefore : Nat) (err : String)
deriving DecidableEq, Repr

/-- The except path of the handler (src/main.py lines 158-161): the user
turn was already appended (line 120) and the placeholder sent (lines
122-123) before the try block; the exception is logged, the message
content is set to the error notice and updated.  No assistant turn is
appended; whatever tokens were streamed before the fault were appended to
the one placeholder message, whose content the final update replaces. -/
def on_message_faulted (history : List Turn) (content : String)
    (tokensBefore : List String) (runsBefore : Nat) (err : String) : MessageOutcome :=
  let history1 := history ++ [{ role := "user", content := content }]
  { history := history1
    ops := .send " " :: (tokensBefore.map .streamToken ++ [.update (error_notice err)])
    guardrailInput := history1
    guardrailRuns := runsBefore }

/-- The whole message handler, fault path included: the try body
(`on_message`) when the remote calls return, the except clause
(`on_message_faulted`) when one of them raises. -/
def runMessage (history : List Turn) (content : String) : MessageRun → MessageOutcome
  | .normal m => on_message history content m
  | .faulted ts g e => on_message_faulted history content ts g e

/-- The content the user sees after a sequence of UI operations, starting
from content `current` on screen: `send`/`update` replace it, a streamed
token is appended to it. -/
def shownContent (ops : List UiOp) (current : String) : String :=
  match ops with
  | [] => current
  | .send c :: rest => shownContent rest c
  | .streamToken t :: rest => shownContent rest (current ++ t)
  | .update c :: rest => shownContent rest c

/-- The final displayed content of a run. -/
def displayed (o : MessageOutcome) : String :=
  shownContent o.ops ""

/-- The number of outgoing messages created (one per `send`). -/
def countSends (ops : List UiOp) : Nat :=
  ops.countP fun op =>
    match op with
    | .send _ => true
    | _ => false

/-- The tokens streamed to the UI, in emission order. -/
def streamedTokens (o : MessageOutcome) : List String :=
  o.ops.filterMap fun op =>
    match op with
    | .streamToken t => some t
    | _ => none

/-- The number of assistant turns in a history. -/
def countAssistant (h : List Turn) : Nat :=
  h.countP fun t => t.role == "assistant"

/-- The startup credential check (src/main.py lines 19, 26-27):
`gemini_api_key = os.getenv("GEMINI_API_KEY")` followed by
`if not gemini_api_key: raise ValueError(...)`.  Python truthiness makes
`not gemini_api_key` true when the variable is unset (`None`) or empty. -/
def startup_check (gemini_api_key : Option String) : Except String Unit :=
  match gemini_api_key with
  | none => .error "❌ GEMINI_API_KEY not found in environment variables."
  | some k =>
    if k = "" then .error "❌ GEMINI_API_KEY not found in environment variables."
    else .ok ()

/-- Folding `on_message` over a sequence of incoming messages, each with
its model behaviour, threading the session history. -/
def processMessages (history : List Turn) : List (String × ModelBehavior) → List Turn
  | [] => history
  | (c, m) :: rest => processMessages (on_message history c m).history rest

/-- A message the guardrail rejects. -/
def rejectBehavior : ModelBehavior :=
  { verdict := { is_homework := false, reasoning := "not a homework question" }
    stream := { events := [], final_output := none } }

/-- An accepted message whose stream delivers text. -/
def acceptBehavior : ModelBehavior :=
  { verdict := { is_homework := true, reasoning := "math homework" }
    stream := { events := [.textDelta "x = ", .otherEvent, .textDelta "2"]
                final_output := some "x = 2" } }

/-- An accepted message whose stream yields only a whitespace delta and
no final output. -/
def whitespaceBehavior : ModelBehavior :=
  { verdict := { is_homework := true, reasoning := "math homework" }
    stream := { events := [.textDelta " "], final_output := none } }

/-- An accepted message whose stream yields no text deltas at all. -/
def emptyBehavior : ModelBehavior :=
  { verdict := { is_homework := true, reasoning := "history homework" }
    stream := { events := [.otherEvent], final_output := none } }

/-- A sequence of UI operations ending in an `update` displays exactly the
updated content, whatever came before. -/
theorem shownContent_concat_update (ops : List UiOp) (cur c : String) :
    shownContent (ops ++ [UiOp.update c]) cur = c := by
  induction ops generalizing cur with
  | nil => rfl
  | cons op rest ih => cases op <;> simp [shownContent, ih]

/-- On a rejected verdict, `on_message` takes the tripwire branch. -/
theorem on_message_rejected (h : List Turn) (c : String) (m : ModelBehavior)
    (hv : m.verdict.is_homework = false) :
    on_message h c m =
      { history := h ++ [{ role := "user", content := c }]
        ops := [.send " ", .update rejection_notice]
        guardrailInput := h ++ [{ role := "user", content := c }]
        guardrailRuns := 1 } := by
  simp [on_message, homework_guardrail, hv]

/-- Streaming a list of tokens contributes no `send` operation. -/
theorem countSends_tokens (ds : List String) :
    countSends (ds.map UiOp.streamToken) = 0 := by
  induction ds with
  | nil => rfl
  | cons d rest ih => simp [countSends, List.countP_cons, ih]

/-- Appending a user turn does not change the assistant-turn count. -/
theorem countAssistant_append_user (h : List Turn) (c : String) :
    countAssistant (h ++ [{ role := "user", content := c }]) = countAssistant h := by
  simp [countAssistant, List.countP_append, List.countP_cons]

/-- C1: for every conversation history on which the guardrail returns
`is_homework = false`, the message handler appends no assistant turn to
the history (it gains exactly the user turn) and the displayed notice
equals exactly the fixed rejection text. -/
theorem rejection_no_append_and_fixed_notice
    (h : List Turn) (c : String) (m : ModelBehavior)
    (hv : m.verdict.is_homework = false) :
    (on_message h c m).history = h ++ [{ role := "user", content := c }] ∧
    displayed (on_message h c m) = rejection_notice := by
  rw [on_message_rejected h c m hv]
  exact ⟨rfl, rfl⟩

/-- C1 witness: a concrete off-topic message on the empty history. -/
theorem rejection_no_append_and_fixed_notice_witness :
    rejectBehavior.verdict.is_homework = false ∧
    ((on_message [] "What is your favorite movie?" rejectBehavior).history =
        [] ++ [{ role := "user", content := "What is your favorite movie?" }] ∧
      displayed (on_message [] "What is your favorite movie?" rejectBehavior) =
        rejection_notice) :=
  ⟨rfl, rejection_no_append_and_fixed_notice [] "What is your favorite movie?"
    rejectBehavior rfl⟩

/-- C2 counterexample: an accepted message whose stream emits the single
delta `" "` and whose final output is absent.  The concatenation of the
emitted deltas is `" "`, which is non-empty, yet the displayed content is
the fallback notice, not that concatenation. -/
theorem stream_concat_counterexample :
    whitespaceBehavior.verdict.is_homework = true ∧
    String.join (deltasOf whitespaceBehavior.stream.events) ≠ "" ∧
    displayed (on_message [] "Solve 2x + 3 = 7" whitespaceBehavior) ≠
      String.join (deltasOf whitespaceBehavior.stream.events) :=
  ⟨rfl, by decide, by decide⟩

/-- C2 (amended): for every accepted message whose final output is present
and whose accumulated streamed text is non-whitespace, the final displayed
content equals the ordered concatenation of all emitted text deltas, and
the tokens streamed to the UI are exactly those deltas in order. -/
theorem stream_concatenation
    (h : List Turn) (c : String) (m : ModelBehavior)
    (hv : m.verdict.is_homework = true)
    (hf : m.stream.final_output.isSome = true)
    (ht : pyStrip (String.join (deltasOf m.stream.events)) ≠ "") :
    displayed (on_message h c m) = String.join (deltasOf m.stream.events) ∧
    streamedTokens (on_message h c m) = deltasOf m.stream.events := by
  have hnone : m.stream.final_output.isNone = false := by
    cases hx : m.stream.final_output <;> simp_all
  have hcond : (m.stream.final_output.isNone ||
      pyStrip (String.join (deltasOf m.stream.events)) == "") = false := by
    simp [hnone, ht]
  constructor
  · simp [on_message, homework_guardrail, hv, hcond, displayed, shownContent,
      shownContent_concat_update]
  · simp [on_message, homework_guardrail, hv, hcond, streamedTokens,
      List.filterMap_cons, List.filterMap_append, List.filterMap_map,
      Function.comp_def]

/-- C2 witness: a concrete accepted message delivering `"x = 2"` in two
deltas with an intervening non-text event. -/
theorem stream_concatenation_witness :
    acceptBehavior.verdict.is_homework = true ∧
    acceptBehavior.stream.final_output.isSome = true ∧
    pyStrip (String.join (deltasOf acceptBehavior.stream.events)) ≠ "" ∧
    (displayed (on_message [] "Solve 2x + 3 = 7" acceptBehavior) =
        String.join (deltasOf acceptBehavior.stream.events) ∧
      streamedTokens (on_message [] "Solve 2x + 3 = 7" acceptBehavior) =
        deltasOf acceptBehavior.stream.events) :=
  ⟨rfl, rfl, by decide,
    stream_concatenation [] "Solve 2x + 3 = 7" acceptBehavior rfl rfl (by decide)⟩

/-- C3: for every accepted message, if the accumulated streamed text is
empty or whitespace-only (in particular when there are zero text deltas),
or the final output is absent, the displayed content is the fixed fallback
notice and no assistant turn is appended. -/
theorem empty_stream_fallback
    (h : List Turn) (c : String) (m : ModelBehavior)
    (hv : m.verdict.is_homework = true)
    (he : pyStrip (String.join (deltasOf m.stream.events)) = "" ∨
      m.stream.final_output = none) :
    displayed (on_message h c m) = fallback_notice ∧
    (on_message h c m).history = h ++ [{ role := "user", content := c }] := by
  have hcond : (m.stream.final_output.isNone ||
      pyStrip (String.join (deltasOf m.stream.events)) == "") = true := by
    rcases he with he | he <;> simp [he]
  constructor
  · simp [on_message, homework_guardrail, hv, hcond, displayed, shownContent,
      shownContent_concat_update]
  · simp [on_message, homework_guardrail, hv, hcond]

/-- C3 witness: a concrete accepted message whose stream has no text delta
and no final output. -/
theorem empty_stream_fallback_witness :
    emptyBehavior.verdict.is_homework = true ∧
    (pyStrip (String.join (deltasOf emptyBehavior.stream.events)) = "" ∨
      emptyBehavior.stream.final_output = none) ∧
    (displayed (on_message [] "Tell me about WW2" emptyBehavior) = fallback_notice ∧
      (on_message [] "Tell me about WW2" emptyBehavior).history =
        [] ++ [{ role := "user", content := "Tell me about WW2" }]) :=
  ⟨rfl, Or.inr rfl,
    empty_stream_fallback [] "Tell me about WW2" emptyBehavior rfl (Or.inr rfl)⟩

/-- C5: on every accepted message, at most one assistant turn is appended
to the history. -/
theorem at_most_one_assistant_turn
    (h : List Turn) (c : String) (m : ModelBehavior)
    (_hv : m.verdict.is_homework = true) :
    countAssistant (on_message h c m).history ≤ countAssistant h + 1 := by
  have huser := countAssistant_append_user h c
  unfold on_message
  dsimp only
  split
  · simp only [huser]
    exact Nat.le_succ _
  · split
    · simp only [huser]
      exact Nat.le_succ _
    · simp only [countAssistant, List.countP_append, List.countP_cons,
        List.countP_nil] at huser ⊢
      simp

/-- C5 witness: the concrete accepted math message. -/
theorem at_most_one_assistant_turn_witness :
    acceptBehavior.verdict.is_homework = true ∧
    countAssistant (on_message [] "Solve 2x + 3 = 7" acceptBehavior).history ≤
      countAssistant [] + 1 :=
  ⟨rfl, at_most_one_assistant_turn [] "Solve 2x + 3 = 7" acceptBehavior rfl⟩

/-- C6: if the credential is absent from the process environment at
startup, the startup check fails with the descriptive fatal error. -/
theorem missing_credential_fatal :
    startup_check none =
      Except.error "❌ GEMINI_API_KEY not found in environment variables." :=
  rfl

/-- C7: for every incoming message on every history, the user turn is
appended before the guardrail runs, and the guardrail receives the entire
conversation history so far (including the new user turn). -/
theorem guardrail_sees_full_history
    (h : List Turn) (c : String) (m : ModelBehavior) :
    (on_message h c m).guardrailInput = h ++ [{ role := "user", content := c }] := by
  unfold on_message
  dsimp only
  split
  · rfl
  · split <;> rfl

/-- C8: repeating rejected messages any number of times leaves the history
equal to the starting history followed by the user turns alone — no
assistant turn ever accumulates. -/
theorem repeated_rejection_only_user_turns
    (h : List Turn) (msgs : List (String × ModelBehavior))
    (hall : ∀ p ∈ msgs, p.2.verdict.is_homework = false) :
    processMessages h msgs =
      h ++ msgs.map fun p => { role := "user", content := p.1 } := by
  induction msgs generalizing h with
  | nil => simp [processMessages]
  | cons p rest ih =>
    obtain ⟨c, m⟩ := p
    have hv : m.verdict.is_homework = false := hall (c, m) (List.mem_cons_self _ _)
    have hrest : ∀ q ∈ rest, q.2.verdict.is_homework = false := fun q hq =>
      hall q (List.mem_cons_of_mem _ hq)
    rw [processMessages, on_message_rejected h c m hv]
    simp only [ih _ hrest, List.map_cons, List.append_assoc, List.singleton_append]

/-- C8 witness: the same off-topic question asked three times in a row. -/
theorem repeated_rejection_only_user_turns_witness :
    (∀ p ∈ [("What is your favorite movie?", rejectBehavior),
            ("What is your favorite movie?", rejectBehavior),
            ("What is your favorite movie?", rejectBehavior)],
        p.2.verdict.is_homework = false) ∧
    processMessages [] [("What is your favorite movie?", rejectBehavior),
            ("What is your favorite movie?", rejectBehavior),
            ("What is your favorite movie?", rejectBehavior)] =
      [] ++ ([("What is your favorite movie?", rejectBehavior),
            ("What is your favorite movie?", rejectBehavior),
            ("What is your favorite movie?", rejectBehavior)].map
        fun p => { role := "user", content := p.1 }) :=
  ⟨by decide,
    repeated_rejection_only_user_turns []
      [("What is your favorite movie?", rejectBehavior),
        ("What is your favorite movie?", rejectBehavior),
        ("What is your favorite movie?", rejectBehavior)] (by decide)⟩

/-- C9: every run of the handler — normal or faulted — creates exactly one
outgoing message, and its final content is the rejection notice, the
fallback notice, the concatenation of the streamed deltas, or (on fault)
the error notice carrying the exception's text — never anything else,
never zero, never more than one. -/
theorem exactly_one_outgoing_message
    (h : List Turn) (c : String) (r : MessageRun) :
    countSends (runMessage h c r).ops = 1 ∧
    (displayed (runMessage h c r) = rejection_notice ∨
      displayed (runMessage h c r) = fallback_notice ∨
      (∃ m, r = MessageRun.normal m ∧
        displayed (runMessage h c r) = String.join (deltasOf m.stream.events)) ∨
      (∃ ts g e, r = MessageRun.faulted ts g e ∧
        displayed (runMessage h c r) = error_notice e)) := by
  cases r with
  | normal m =>
    simp only [runMessage]
    unfold on_message
    dsimp only
    split
    · exact ⟨rfl, Or.inl rfl⟩
    · split
      · refine ⟨?_, Or.inr (Or.inl ?_)⟩
        · simp [countSends, List.countP_cons, List.countP_append,
            countSends_tokens (deltasOf m.stream.events)]
        · simp [displayed, shownContent, shownContent_concat_update]
      · refine ⟨?_, Or.inr (Or.inr (Or.inl ⟨m, rfl, ?_⟩))⟩
        · simp [countSends, List.countP_cons, List.countP_append,
            countSends_tokens (deltasOf m.stream.events)]
        · simp [displayed, shownContent, shownContent_concat_update]
  | faulted ts g e =>
    refine ⟨?_, Or.inr (Or.inr (Or.inr ⟨ts, g, e, rfl, ?_⟩))⟩
    · simp [runMessage, on_message_faulted, countSends, List.countP_cons,
        List.countP_append, countSends_tokens ts]
    · simp [runMessage, on_message_faulted, displayed, shownContent,
        shownContent_concat_update]

/-- C10 counterexample: on a concrete accepted message the guardrail
classifier is invoked twice — once manually by the handler (line 127) and
once by the orchestrator as the triage agent's declared input guardrail —
not exactly once. -/
theorem guardrail_single_run_counterexample :
    (on_message [] "Solve 2x + 3 = 7" acceptBehavior).guardrailRuns ≠ 1 := by
  decide

/-- C10 (amended): the triage agent itself holds no guardrail call, but
the guardrail classifier is evaluated at two points per accepted message
(the handler's manual call, plus the orchestrator's evaluation of the
triage agent's declared input guardrail); on rejected messages the handler
returns first and it runs once. -/
theorem guardrail_run_count
    (h : List Turn) (c : String) (m : ModelBehavior) :
    (on_message h c m).guardrailRuns = if m.verdict.is_homework then 2 else 1 := by
  cases hv : m.verdict.is_homework
  · simp [on_message, homework_guardrail, hv]
  · simp only [on_message, homework_guardrail, hv, Bool.not_true, Bool.false_eq_true,
      if_false, if_true]
    split <;> rfl

end AiTutor
